import Mathlib

/-!
Verification of the geometry core of the harmonic-drive drawing generator
(`drawings/generate_dxf.py` and `drawings/solidworks/generate_step_files.py`).

The Python floating point arithmetic is modelled by real arithmetic:
`math.cos`, `math.sin` and `math.pi` become `Real.cos`, `Real.sin` and
`Real.pi`.  Module-level design constants become Lean constants with the same
names, and each geometry function becomes a pure function returning a list of
real pairs, built with the same loop structure as the source.
-/

namespace HDrive

noncomputable section

/-- Design constant from `generate_dxf.py`: the gear reduction ratio. -/
def GEAR_RATIO : ℕ := 100

/-- Design constant from `generate_dxf.py`: flex/circular tooth count difference. -/
def TOOTH_DIFFERENCE : ℕ := 2

/-- Design constant from `generate_dxf.py`: gear module in millimetres. -/
def MODULE : ℝ := 0.4

/-- Derived constant from `generate_dxf.py`: flex spline tooth count. -/
def Z_FLEX : ℕ := GEAR_RATIO * TOOTH_DIFFERENCE

/-- Derived constant from `generate_dxf.py`: circular spline tooth count. -/
def Z_CIRC : ℕ := Z_FLEX + TOOTH_DIFFERENCE

/-- Derived constant from `generate_dxf.py`: flex spline pitch diameter. -/
def D_PITCH_FLEX : ℝ := (Z_FLEX : ℝ) * MODULE

/-- Derived constant from `generate_dxf.py`: circular spline pitch diameter. -/
def D_PITCH_CIRC : ℝ := (Z_CIRC : ℝ) * MODULE

/-- Derived constant from `generate_dxf.py`: tooth addendum. -/
def ADDENDUM : ℝ := 0.8 * MODULE

/-- Derived constant from `generate_dxf.py`: tooth dedendum. -/
def DEDENDUM : ℝ := 1.0 * MODULE

/-- Derived constant from `generate_dxf.py`: flex spline outer diameter. -/
def D_OUTER_FLEX : ℝ := D_PITCH_FLEX + 2 * ADDENDUM

/-- Loop body of `generate_tooth_profile` in `generate_dxf.py`, as a function
of the parameter `t = i / num_points`: the (x, y) sample of the single-tooth
S-curve profile. -/
def tooth_xy (t : ℝ) : ℝ × ℝ :=
  let circular_pitch := Real.pi * MODULE
  let x := (t - 0.5) * circular_pitch
  let y :=
    if t < 0.5 then
      -DEDENDUM + (DEDENDUM + ADDENDUM) * (1 - Real.cos (Real.pi * (t / 0.5))) / 2
    else
      ADDENDUM - (DEDENDUM + ADDENDUM) * (1 - Real.cos (Real.pi * ((t - 0.5) / 0.5))) / 2
  (x, y)

/-- `generate_tooth_profile` from `generate_dxf.py`: `num_points + 1` samples
of the S-curve tooth profile at `t = i / num_points`, `i = 0, …, num_points`.
(For `num_points = 0` the source divides by zero; results below are stated for
`num_points ≥ 1`.) -/
def generate_tooth_profile (num_points : ℕ) : List (ℝ × ℝ) :=
  (List.range (num_points + 1)).map fun (i : ℕ) => tooth_xy ((i : ℝ) / (num_points : ℝ))

/-- `generate_flex_spline_teeth` from `generate_dxf.py`: the full external
gear outline, one projected copy of the tooth profile per tooth index. -/
def generate_flex_spline_teeth (num_teeth : ℕ) (num_points_per_tooth : ℕ) :
    List (ℝ × ℝ) :=
  let radius := D_PITCH_FLEX / 2
  let tooth_profile := generate_tooth_profile num_points_per_tooth
  (List.range num_teeth).flatMap fun (tooth : ℕ) =>
    let angle_offset := 2 * Real.pi * (tooth : ℝ) / (num_teeth : ℝ)
    tooth_profile.map fun p =>
      let tooth_angle := p.1 / radius
      let total_angle := angle_offset + tooth_angle
      let r := radius + p.2
      (r * Real.cos total_angle, r * Real.sin total_angle)

/-- `generate_circular_spline_teeth` from `generate_dxf.py`: the full internal
gear outline; identical to the flex projection except that the local radial
offset is subtracted (`r = radius - py`). -/
def generate_circular_spline_teeth (num_teeth : ℕ) (num_points_per_tooth : ℕ) :
    List (ℝ × ℝ) :=
  let radius := D_PITCH_CIRC / 2
  let tooth_profile := generate_tooth_profile num_points_per_tooth
  (List.range num_teeth).flatMap fun (tooth : ℕ) =>
    let angle_offset := 2 * Real.pi * (tooth : ℝ) / (num_teeth : ℝ)
    tooth_profile.map fun p =>
      let tooth_angle := p.1 / radius
      let total_angle := angle_offset + tooth_angle
      let r := radius - p.2
      (r * Real.cos total_angle, r * Real.sin total_angle)

/-- `generate_ellipse` from `generate_dxf.py`.  The trailing
`points.take 1` models the source's `points.append(points[0])` (which raises
`IndexError` when `num_points = 0`; results are stated for `num_points ≥ 1`). -/
def generate_ellipse (major_axis minor_axis : ℝ) (num_points : ℕ) :
    List (ℝ × ℝ) :=
  let a := major_axis / 2
  let b := minor_axis / 2
  let points := (List.range num_points).map fun (i : ℕ) =>
    let angle := 2 * Real.pi * (i : ℝ) / (num_points : ℝ)
    (a * Real.cos angle, b * Real.sin angle)
  points ++ points.take 1

/-- `generate_circle` from `generate_dxf.py`.  The trailing `points.take 1`
models the source's `points.append(points[0])`. -/
def generate_circle (diameter : ℝ) (num_points : ℕ) : List (ℝ × ℝ) :=
  let r := diameter / 2
  let points := (List.range num_points).map fun (i : ℕ) =>
    let angle := 2 * Real.pi * (i : ℝ) / (num_points : ℝ)
    (r * Real.cos angle, r * Real.sin angle)
  points ++ points.take 1

/-- External branch of `generate_s_curve_tooth_points` in
`generate_step_files.py`, as a function of `t = i / (num_points - 1)`. -/
def s_curve_xy_external (module profile_shift : ℝ) (t : ℝ) : ℝ × ℝ :=
  let pitch := Real.pi * module
  let addendum := 0.8 * module + profile_shift
  let dedendum := 1.0 * module - profile_shift
  let tooth_width := pitch / 2
  if t ≤ 0.5 then
    let progress := 2 * t
    let angle := Real.pi * progress / 2
    (-tooth_width / 3 * (1 - progress),
      -dedendum + (addendum + dedendum) * Real.sin angle)
  else
    let progress := 2 * (t - 0.5)
    let angle := Real.pi * (1 - progress) / 2
    (tooth_width / 3 * progress,
      -dedendum + (addendum + dedendum) * Real.sin angle)

/-- Internal branch of `generate_s_curve_tooth_points` in
`generate_step_files.py`, as a function of `t = i / (num_points - 1)`. -/
def s_curve_xy_internal (module profile_shift : ℝ) (t : ℝ) : ℝ × ℝ :=
  let addendum := 0.8 * module + profile_shift
  let dedendum := 1.0 * module - profile_shift
  let tooth_width := Real.pi * module / 2
  let r_root := 1.2 * module
  if t ≤ 0.5 then
    let angle := Real.pi * (1 - 2 * t)
    (-tooth_width / 4 + r_root * Real.cos angle * 0.5,
      -dedendum + (addendum + dedendum) * (2 * t))
  else
    let angle := Real.pi * (2 * t - 1)
    (tooth_width / 4 - r_root * Real.cos angle * 0.5,
      addendum - (addendum + dedendum) * (2 * (t - 0.5)))

/-- `generate_s_curve_tooth_points` from `generate_step_files.py`:
`num_points` samples at `t = i / (num_points - 1)`, `i = 0, …, num_points - 1`,
using the internal or external branch.  (For `num_points = 1` the source
divides by zero; results below are stated for `num_points ≥ 2`.) -/
def generate_s_curve_tooth_points (module : ℝ) (num_points : ℕ)
    (is_internal : Bool) (profile_shift : ℝ) : List (ℝ × ℝ) :=
  (List.range num_points).map fun (i : ℕ) =>
    let t : ℝ := (i : ℝ) / ((num_points : ℝ) - 1)
    if is_internal then s_curve_xy_internal module profile_shift t
    else s_curve_xy_external module profile_shift t

end

/-- The fully derived parameter set.  Field names follow the module-level
constants of `generate_dxf.py` / `generate_step_files.py`; exact rational
arithmetic models the exactness asserted by the spec. -/
structure GearParameters where
  Z_flex : ℤ
  Z_circ : ℤ
  D_pitch_flex : ℚ
  D_pitch_circ : ℚ
  addendum : ℚ
  dedendum : ℚ
  D_outer_flex : ℚ
deriving DecidableEq

/-- The module-level parameter derivation of `generate_dxf.py` and
`generate_step_files.py`, with the primary inputs (hard-coded constants in the
source) as arguments.  Exactly the source's formulas; the source contains no
validation of any kind, so the derivation is total. -/
def deriveParameters (gearRatio toothDifference : ℤ) (module : ℚ) :
    GearParameters :=
  let z_flex := gearRatio * toothDifference
  let z_circ := z_flex + toothDifference
  let addendum := 0.8 * module
  let dedendum := 1.0 * module
  let d_pitch_flex := (z_flex : ℚ) * module
  let d_pitch_circ := (z_circ : ℚ) * module
  { Z_flex := z_flex
    Z_circ := z_circ
    D_pitch_flex := d_pitch_flex
    D_pitch_circ := d_pitch_circ
    addendum := addendum
    dedendum := dedendum
    D_outer_flex := d_pitch_flex + 2 * addendum }

/-! ### Helper lemmas -/

lemma length_generate_tooth_profile (n : ℕ) :
    (generate_tooth_profile n).length = n + 1 := by
  simp [generate_tooth_profile]

lemma length_generate_s_curve_tooth_points (m ps : ℝ) (b : Bool) (n : ℕ) :
    (generate_s_curve_tooth_points m n b ps).length = n := by
  simp [generate_s_curve_tooth_points]

lemma flatMap_range_length {α : Type*} (f : ℕ → List α) (Z m : ℕ)
    (hf : ∀ i, i < Z → (f i).length = m) :
    ((List.range Z).flatMap f).length = Z * m := by
  induction Z with
  | zero => simp
  | succ Z ih =>
    rw [List.range_succ, List.flatMap_append, List.flatMap_cons, List.flatMap_nil,
      List.append_nil, List.length_append, ih (fun i hi => hf i (Nat.lt_succ_of_lt hi)),
      hf Z (Nat.lt_succ_self Z)]
    ring

lemma flatMap_range_getElem? {α : Type*} (f : ℕ → List α) (Z m k j : ℕ)
    (hf : ∀ i, i < Z → (f i).length = m) (hk : k < Z) (hj : j < m) :
    ((List.range Z).flatMap f)[k * m + j]? = (f k)[j]? := by
  induction Z with
  | zero => exact absurd hk (Nat.not_lt_zero k)
  | succ Z ih =>
    have hf' : ∀ i, i < Z → (f i).length = m := fun i hi => hf i (Nat.lt_succ_of_lt hi)
    have hlen : ((List.range Z).flatMap f).length = Z * m := flatMap_range_length f Z m hf'
    rw [List.range_succ, List.flatMap_append, List.flatMap_cons, List.flatMap_nil,
      List.append_nil]
    rcases Nat.lt_or_ge k Z with h | h
    · have hidx : k * m + j < ((List.range Z).flatMap f).length := by
        rw [hlen]
        have h1 : k * m + j < k * m + m := Nat.add_lt_add_left hj _
        have h2 : k * m + m ≤ Z * m := by
          have := Nat.mul_le_mul_right m (Nat.succ_le_of_lt h)
          simpa [Nat.succ_mul] using this
        omega
      rw [List.getElem?_append, if_pos hidx]
      exact ih hf' h
    · have hkZ : k = Z := Nat.le_antisymm (Nat.lt_succ_iff.mp hk) h
      subst hkZ
      rw [List.getElem?_append_right (by rw [hlen]; exact Nat.le_add_right _ _), hlen]
      congr 1
      omega

lemma length_generate_flex_spline_teeth (Z n : ℕ) :
    (generate_flex_spline_teeth Z n).length = Z * (n + 1) := by
  simp only [generate_flex_spline_teeth]
  exact flatMap_range_length _ Z (n + 1)
    (fun i _ => by simp [length_generate_tooth_profile])

lemma length_generate_circular_spline_teeth (Z n : ℕ) :
    (generate_circular_spline_teeth Z n).length = Z * (n + 1) := by
  simp only [generate_circular_spline_teeth]
  exact flatMap_range_length _ Z (n + 1)
    (fun i _ => by simp [length_generate_tooth_profile])

lemma generate_flex_spline_teeth_getElem? (Z n k j : ℕ) (hk : k < Z) (hj : j < n + 1) :
    (generate_flex_spline_teeth Z n)[k * (n + 1) + j]? =
      ((generate_tooth_profile n)[j]?).map fun p =>
        ((D_PITCH_FLEX / 2 + p.2) *
            Real.cos (2 * Real.pi * (k : ℝ) / (Z : ℝ) + p.1 / (D_PITCH_FLEX / 2)),
          (D_PITCH_FLEX / 2 + p.2) *
            Real.sin (2 * Real.pi * (k : ℝ) / (Z : ℝ) + p.1 / (D_PITCH_FLEX / 2))) := by
  simp only [generate_flex_spline_teeth]
  rw [flatMap_range_getElem? _ Z (n + 1) k j
    (fun i _ => by simp [length_generate_tooth_profile]) hk hj]
  rw [List.getElem?_map]

lemma generate_circular_spline_teeth_getElem? (Z n k j : ℕ) (hk : k < Z) (hj : j < n + 1) :
    (generate_circular_spline_teeth Z n)[k * (n + 1) + j]? =
      ((generate_tooth_profile n)[j]?).map fun p =>
        ((D_PITCH_CIRC / 2 - p.2) *
            Real.cos (2 * Real.pi * (k : ℝ) / (Z : ℝ) + p.1 / (D_PITCH_CIRC / 2)),
          (D_PITCH_CIRC / 2 - p.2) *
            Real.sin (2 * Real.pi * (k : ℝ) / (Z : ℝ) + p.1 / (D_PITCH_CIRC / 2))) := by
  simp only [generate_circular_spline_teeth]
  rw [flatMap_range_getElem? _ Z (n + 1) k j
    (fun i _ => by simp [length_generate_tooth_profile]) hk hj]
  rw [List.getElem?_map]

lemma length_generate_circle (d : ℝ) (n : ℕ) (hn : 1 ≤ n) :
    (generate_circle d n).length = n + 1 := by
  simp [generate_circle]
  omega

lemma length_generate_ellipse (a b : ℝ) (n : ℕ) (hn : 1 ≤ n) :
    (generate_ellipse a b n).length = n + 1 := by
  simp [generate_ellipse]
  omega

lemma generate_circle_getElem?_lt (d : ℝ) (n i : ℕ) (hi : i < n) :
    (generate_circle d n)[i]? =
      some (d / 2 * Real.cos (2 * Real.pi * (i : ℝ) / (n : ℝ)),
        d / 2 * Real.sin (2 * Real.pi * (i : ℝ) / (n : ℝ))) := by
  simp only [generate_circle]
  rw [List.getElem?_append, if_pos (by simpa using hi)]
  simp [List.getElem?_range, hi]

lemma generate_ellipse_getElem?_lt (a b : ℝ) (n i : ℕ) (hi : i < n) :
    (generate_ellipse a b n)[i]? =
      some (a / 2 * Real.cos (2 * Real.pi * (i : ℝ) / (n : ℝ)),
        b / 2 * Real.sin (2 * Real.pi * (i : ℝ) / (n : ℝ))) := by
  simp only [generate_ellipse]
  rw [List.getElem?_append, if_pos (by simpa using hi)]
  simp [List.getElem?_range, hi]

lemma generate_circle_last_eq_head (d : ℝ) (n : ℕ) (hn : 1 ≤ n) :
    (generate_circle d n)[n]? = (generate_circle d n)[0]? := by
  simp only [generate_circle]
  rw [List.getElem?_append_right (by simp),
    List.getElem?_append, if_pos (by simpa using hn)]
  simp [List.getElem?_take, hn, List.getElem?_range hn]

lemma generate_ellipse_last_eq_head (a b : ℝ) (n : ℕ) (hn : 1 ≤ n) :
    (generate_ellipse a b n)[n]? = (generate_ellipse a b n)[0]? := by
  simp only [generate_ellipse]
  rw [List.getElem?_append_right (by simp),
    List.getElem?_append, if_pos (by simpa using hn)]
  simp [List.getElem?_take, hn, List.getElem?_range hn]

lemma tooth_xy_mirror (t : ℝ) :
    tooth_xy (1 - t) = (-(tooth_xy t).1, (tooth_xy t).2) := by
  simp only [tooth_xy]
  rcases lt_trichotomy t 0.5 with ht | ht | ht
  · rw [if_neg (by linarith : ¬(1 - t < 0.5)), if_pos ht]
    simp only [Prod.mk.injEq]
    refine ⟨by ring, ?_⟩
    rw [show Real.pi * ((1 - t - 0.5) / 0.5) = Real.pi - 2 * Real.pi * t by ring,
      show Real.pi * (t / 0.5) = 2 * Real.pi * t by ring, Real.cos_pi_sub]
    ring
  · subst ht
    rw [if_neg (by norm_num : ¬((1:ℝ) - 0.5 < 0.5)), if_neg (by norm_num : ¬((0.5:ℝ) < 0.5))]
    simp only [Prod.mk.injEq]
    constructor
    · ring
    · norm_num
  · rw [if_pos (by linarith : 1 - t < 0.5), if_neg (by linarith : ¬(t < 0.5))]
    simp only [Prod.mk.injEq]
    refine ⟨by ring, ?_⟩
    rw [show Real.pi * ((1 - t) / 0.5) = 2 * Real.pi - 2 * Real.pi * t by ring,
      show Real.pi * ((t - 0.5) / 0.5) = 2 * Real.pi * t - Real.pi by ring,
      Real.cos_sub, Real.cos_two_pi, Real.sin_two_pi, Real.cos_sub_pi]
    ring

lemma s_curve_xy_external_mirror (m ps t : ℝ) :
    s_curve_xy_external m ps (1 - t) =
      (-(s_curve_xy_external m ps t).1, (s_curve_xy_external m ps t).2) := by
  simp only [s_curve_xy_external]
  rcases lt_trichotomy t 0.5 with ht | ht | ht
  · rw [if_neg (by linarith : ¬(1 - t ≤ 0.5)), if_pos (le_of_lt ht)]
    simp only [Prod.mk.injEq]
    refine ⟨by ring, ?_⟩
    rw [show Real.pi * (1 - 2 * (1 - t - 0.5)) / 2 = Real.pi * (2 * t) / 2 by ring]
  · subst ht
    rw [if_pos (by norm_num : (1:ℝ) - 0.5 ≤ 0.5), if_pos (by norm_num : (0.5:ℝ) ≤ 0.5)]
    simp only [Prod.mk.injEq]
    refine ⟨by ring, by norm_num⟩
  · rw [if_pos (by linarith : 1 - t ≤ 0.5), if_neg (by linarith : ¬(t ≤ 0.5))]
    simp only [Prod.mk.injEq]
    refine ⟨by ring, ?_⟩
    rw [show Real.pi * (2 * (1 - t)) / 2 = Real.pi * (1 - 2 * (t - 0.5)) / 2 by ring]

lemma mirror_list (g : ℕ → ℝ × ℝ) (N : ℕ)
    (hg : ∀ i, i ≤ N → g (N - i) = (-(g i).1, (g i).2)) :
    ((List.range (N + 1)).map g).reverse.map (fun p => (-p.1, p.2)) =
      (List.range (N + 1)).map g := by
  apply List.ext_getElem
  · simp
  · intro i h1 h2
    simp only [List.length_map, List.length_reverse, List.length_range] at h1 h2
    simp only [List.getElem_map, List.getElem_reverse, List.getElem_range,
      List.length_map, List.length_range]
    have hidx : N + 1 - 1 - i = N - i := by omega
    rw [hidx, hg i (by omega)]
    simp

lemma generate_tooth_profile_mirror (n : ℕ) (hn : 1 ≤ n) :
    (generate_tooth_profile n).reverse.map (fun p => (-p.1, p.2)) =
      generate_tooth_profile n := by
  simp only [generate_tooth_profile]
  apply mirror_list
  intro i hi
  have hn0 : ((n : ℝ)) ≠ 0 := by positivity
  have hcast : ((n - i : ℕ) : ℝ) = (n : ℝ) - i := by push_cast [hi]; ring
  have ht : ((n - i : ℕ) : ℝ) / n = 1 - (i : ℝ) / n := by
    rw [hcast]; field_simp
  rw [ht, tooth_xy_mirror]

lemma generate_s_curve_external_mirror (m ps : ℝ) (n : ℕ) (hn : 2 ≤ n) :
    (generate_s_curve_tooth_points m n false ps).reverse.map (fun p => (-p.1, p.2)) =
      generate_s_curve_tooth_points m n false ps := by
  obtain ⟨N, rfl⟩ : ∃ N, n = N + 1 := ⟨n - 1, by omega⟩
  simp only [generate_s_curve_tooth_points, Bool.false_eq_true, if_false]
  apply mirror_list
  intro i hi
  have hN : 1 ≤ N := by omega
  have hN0 : ((N : ℝ)) ≠ 0 := by positivity
  have hden : ((N + 1 : ℕ) : ℝ) - 1 = (N : ℝ) := by push_cast; ring
  have hcast : ((N - i : ℕ) : ℝ) = (N : ℝ) - i := by push_cast [hi]; ring
  rw [hden, hcast]
  have ht : ((N : ℝ) - i) / N = 1 - (i : ℝ) / N := by field_simp
  rw [ht, s_curve_xy_external_mirror]

lemma tooth_xy_zero : (tooth_xy 0).2 = -DEDENDUM := by
  simp only [tooth_xy]
  rw [if_pos (by norm_num : (0:ℝ) < 0.5)]
  norm_num

lemma tooth_xy_one : (tooth_xy 1).2 = -DEDENDUM := by
  simp only [tooth_xy]
  rw [if_neg (by norm_num : ¬((1:ℝ) < 0.5)),
    show Real.pi * (((1:ℝ) - 0.5) / 0.5) = Real.pi by norm_num, Real.cos_pi]
  ring

lemma tooth_xy_half : tooth_xy (1/2) = (0, ADDENDUM) := by
  simp only [tooth_xy]
  rw [if_neg (by norm_num : ¬((1:ℝ)/2 < 0.5))]
  norm_num [Prod.mk.injEq]

lemma s_curve_xy_external_zero (m ps : ℝ) :
    (s_curve_xy_external m ps 0).2 = -(1.0 * m - ps) := by
  simp only [s_curve_xy_external]
  rw [if_pos (by norm_num : (0:ℝ) ≤ 0.5)]
  norm_num

lemma s_curve_xy_external_one (m ps : ℝ) :
    (s_curve_xy_external m ps 1).2 = -(1.0 * m - ps) := by
  simp only [s_curve_xy_external]
  rw [if_neg (by norm_num : ¬((1:ℝ) ≤ 0.5))]
  norm_num

/-! ### Claim theorems -/

/-- C1: Parameter derivation is exact.  For every input, `Z_circ = Z_flex +
toothDifference`, each pitch diameter equals its tooth count times the module,
and the flex outer diameter is the flex pitch diameter plus two addenda;
at the concrete inputs `module = 0.4`, `gearRatio = 100`, `toothDifference = 2`
the derived values are `Z_flex = 200`, `Z_circ = 202`, pitch diameters `80.0`
and `80.8`, addendum `0.32` and flex outer diameter `80.64`, and the
module-level constants of `generate_dxf.py` take exactly these values. -/
theorem parameter_derivation_exact :
    (∀ (gearRatio toothDifference : ℤ) (module : ℚ),
      (deriveParameters gearRatio toothDifference module).Z_circ =
          (deriveParameters gearRatio toothDifference module).Z_flex + toothDifference ∧
        (deriveParameters gearRatio toothDifference module).D_pitch_flex =
          ((deriveParameters gearRatio toothDifference module).Z_flex : ℚ) * module ∧
        (deriveParameters gearRatio toothDifference module).D_pitch_circ =
          ((deriveParameters gearRatio toothDifference module).Z_circ : ℚ) * module ∧
        (deriveParameters gearRatio toothDifference module).D_outer_flex =
          (deriveParameters gearRatio toothDifference module).D_pitch_flex +
            2 * (deriveParameters gearRatio toothDifference module).addendum) ∧
    deriveParameters 100 2 (0.4 : ℚ) =
      { Z_flex := 200, Z_circ := 202, D_pitch_flex := 80, D_pitch_circ := 80.8,
        addendum := 0.32, dedendum := 0.4, D_outer_flex := 80.64 } ∧
    Z_FLEX = 200 ∧ Z_CIRC = 202 ∧ D_PITCH_FLEX = 80 ∧ D_PITCH_CIRC = 80.8 ∧
    ADDENDUM = 0.32 ∧ D_OUTER_FLEX = 80.64 := by
  refine ⟨fun gr td m => ⟨?_, ?_, ?_, ?_⟩, ?_, ?_, ?_, ?_, ?_, ?_, ?_⟩
  · simp [deriveParameters]
  · simp [deriveParameters]
  · simp [deriveParameters]
  · simp [deriveParameters]
  · rw [deriveParameters, GearParameters.mk.injEq]
    norm_num
  · decide
  · decide
  · norm_num [D_PITCH_FLEX, Z_FLEX, MODULE, GEAR_RATIO, TOOTH_DIFFERENCE]
  · norm_num [D_PITCH_CIRC, Z_CIRC, Z_FLEX, MODULE, GEAR_RATIO, TOOTH_DIFFERENCE]
  · norm_num [ADDENDUM, MODULE]
  · norm_num [D_OUTER_FLEX, D_PITCH_FLEX, ADDENDUM, Z_FLEX, MODULE, GEAR_RATIO,
      TOOTH_DIFFERENCE]

/-- C2: Radial array projection formula.  For every tooth index `k < Z` and
every point `p = (px, py)` of the local tooth profile, the flex (external)
projector emits `((r + py)·cos θ, (r + py)·sin θ)` and the circular (internal)
projector emits `((r' − py)·cos θ', (r' − py)·sin θ')`, where
`θ = 2πk/Z + px/r` with `r` the respective pitch radius; the sign on `py` is
the only difference between the two projections. -/
theorem radial_array_projection (Z n k j : ℕ) (p : ℝ × ℝ) (hk : k < Z)
    (hp : (generate_tooth_profile n)[j]? = some p) :
    (generate_flex_spline_teeth Z n)[k * (n + 1) + j]? =
      some ((D_PITCH_FLEX / 2 + p.2) *
          Real.cos (2 * Real.pi * (k : ℝ) / (Z : ℝ) + p.1 / (D_PITCH_FLEX / 2)),
        (D_PITCH_FLEX / 2 + p.2) *
          Real.sin (2 * Real.pi * (k : ℝ) / (Z : ℝ) + p.1 / (D_PITCH_FLEX / 2))) ∧
    (generate_circular_spline_teeth Z n)[k * (n + 1) + j]? =
      some ((D_PITCH_CIRC / 2 - p.2) *
          Real.cos (2 * Real.pi * (k : ℝ) / (Z : ℝ) + p.1 / (D_PITCH_CIRC / 2)),
        (D_PITCH_CIRC / 2 - p.2) *
          Real.sin (2 * Real.pi * (k : ℝ) / (Z : ℝ) + p.1 / (D_PITCH_CIRC / 2))) := by
  have hj : j < n + 1 := by
    by_contra h
    rw [List.getElem?_eq_none
      (by simpa [length_generate_tooth_profile] using Nat.le_of_not_lt h)] at hp
    exact Option.noConfusion hp
  constructor
  · rw [generate_flex_spline_teeth_getElem? Z n k j hk hj, hp]
    rfl
  · rw [generate_circular_spline_teeth_getElem? Z n k j hk hj, hp]
    rfl

/-- Witness for C2 at `Z = 1`, `n = 1`, `k = j = 0`, where the profile's first
point is `tooth_xy 0`. -/
theorem radial_array_projection_witness :
    (generate_flex_spline_teeth 1 1)[0 * (1 + 1) + 0]? =
      some ((D_PITCH_FLEX / 2 + (tooth_xy 0).2) *
          Real.cos (2 * Real.pi * ((0 : ℕ) : ℝ) / ((1 : ℕ) : ℝ) +
            (tooth_xy 0).1 / (D_PITCH_FLEX / 2)),
        (D_PITCH_FLEX / 2 + (tooth_xy 0).2) *
          Real.sin (2 * Real.pi * ((0 : ℕ) : ℝ) / ((1 : ℕ) : ℝ) +
            (tooth_xy 0).1 / (D_PITCH_FLEX / 2))) ∧
    (generate_circular_spline_teeth 1 1)[0 * (1 + 1) + 0]? =
      some ((D_PITCH_CIRC / 2 - (tooth_xy 0).2) *
          Real.cos (2 * Real.pi * ((0 : ℕ) : ℝ) / ((1 : ℕ) : ℝ) +
            (tooth_xy 0).1 / (D_PITCH_CIRC / 2)),
        (D_PITCH_CIRC / 2 - (tooth_xy 0).2) *
          Real.sin (2 * Real.pi * ((0 : ℕ) : ℝ) / ((1 : ℕ) : ℝ) +
            (tooth_xy 0).1 / (D_PITCH_CIRC / 2))) :=
  radial_array_projection 1 1 0 0 (tooth_xy 0) (by decide)
    (by simp [generate_tooth_profile])

/-- C3: External single-tooth profile shape.  With `w = π·module/2`, the
external S-curve point at parameter `t` has `x` advancing linearly from
`−w/3` to `0` on the first half and from `0` to `+w/3` on the second half,
and `y` following the half-sine easing
`y = −dedendum + (addendum + dedendum)·sin(π·progress/2)` with the progress
variable reset on each half; in particular the profile starts and ends at the
root height `−dedendum` and its tip `(0, addendum)` is reached at `t = 1/2`. -/
theorem external_tooth_shape (m ps t : ℝ) :
    s_curve_xy_external m ps t =
      (if t ≤ 0.5 then
        (-(Real.pi * m / 2) / 3 * (1 - 2 * t),
          -(1.0 * m - ps) + (0.8 * m + ps + (1.0 * m - ps)) *
            Real.sin (Real.pi * (2 * t) / 2))
      else
        ((Real.pi * m / 2) / 3 * (2 * (t - 0.5)),
          -(1.0 * m - ps) + (0.8 * m + ps + (1.0 * m - ps)) *
            Real.sin (Real.pi * (1 - 2 * (t - 0.5)) / 2))) ∧
    s_curve_xy_external m ps 0 = (-(Real.pi * m / 2) / 3, -(1.0 * m - ps)) ∧
    s_curve_xy_external m ps (1 / 2) = (0, 0.8 * m + ps) ∧
    s_curve_xy_external m ps 1 = ((Real.pi * m / 2) / 3, -(1.0 * m - ps)) := by
  refine ⟨?_, ?_, ?_, ?_⟩
  · simp only [s_curve_xy_external]
  · simp only [s_curve_xy_external]
    rw [if_pos (by norm_num : (0 : ℝ) ≤ 0.5)]
    norm_num
  · simp only [s_curve_xy_external]
    rw [if_pos (by norm_num : (1 : ℝ) / 2 ≤ 0.5),
      show Real.pi * (2 * ((1 : ℝ) / 2)) / 2 = Real.pi / 2 by ring,
      Real.sin_pi_div_two]
    simp only [Prod.mk.injEq]
    constructor <;> ring
  · simp only [s_curve_xy_external]
    rw [if_neg (by norm_num : ¬((1 : ℝ) ≤ 0.5)),
      show Real.pi * (1 - 2 * ((1 : ℝ) - 0.5)) / 2 = 0 by norm_num,
      Real.sin_zero]
    simp only [Prod.mk.injEq]
    constructor <;> ring

/-- C4: Conic closure is exact.  For every `n ≥ 1`, `generate_circle` and
`generate_ellipse` return `n + 1` points whose last entry is exactly the first
(the source appends `points[0]`); every point with index `i < n` is the sample
at angle `2πi/n`; every circle sample lies exactly at distance `d/2` from the
origin; and the sampled angles are equally spaced, strictly increasing and
contained in `[0, 2π)` (counter-clockwise winding). -/
theorem conic_closure_and_sampling (d a b : ℝ) (n : ℕ) (hn : 1 ≤ n) :
    (generate_circle d n).length = n + 1 ∧
    (generate_circle d n)[n]? = (generate_circle d n)[0]? ∧
    (generate_ellipse a b n).length = n + 1 ∧
    (generate_ellipse a b n)[n]? = (generate_ellipse a b n)[0]? ∧
    (∀ i : ℕ, i < n →
      (generate_circle d n)[i]? =
          some (d / 2 * Real.cos (2 * Real.pi * (i : ℝ) / (n : ℝ)),
            d / 2 * Real.sin (2 * Real.pi * (i : ℝ) / (n : ℝ))) ∧
        (generate_ellipse a b n)[i]? =
          some (a / 2 * Real.cos (2 * Real.pi * (i : ℝ) / (n : ℝ)),
            b / 2 * Real.sin (2 * Real.pi * (i : ℝ) / (n : ℝ)))) ∧
    (∀ (i : ℕ) (x y : ℝ), i < n → (generate_circle d n)[i]? = some (x, y) →
      x ^ 2 + y ^ 2 = (d / 2) ^ 2) ∧
    (∀ i j : ℕ, i < j → j < n →
      2 * Real.pi * (i : ℝ) / (n : ℝ) < 2 * Real.pi * (j : ℝ) / (n : ℝ)) ∧
    (∀ i : ℕ, i < n →
      0 ≤ 2 * Real.pi * (i : ℝ) / (n : ℝ) ∧
        2 * Real.pi * (i : ℝ) / (n : ℝ) < 2 * Real.pi) := by
  have hn0 : (0 : ℝ) < (n : ℝ) := by exact_mod_cast hn
  refine ⟨length_generate_circle d n hn, generate_circle_last_eq_head d n hn,
    length_generate_ellipse a b n hn, generate_ellipse_last_eq_head a b n hn,
    fun i hi => ⟨generate_circle_getElem?_lt d n i hi,
      generate_ellipse_getElem?_lt a b n i hi⟩, ?_, ?_, ?_⟩
  · intro i x y hi hsome
    rw [generate_circle_getElem?_lt d n i hi] at hsome
    obtain ⟨hx, hy⟩ := Prod.mk.injEq .. |>.mp (Option.some.inj hsome)
    rw [← hx, ← hy]
    linear_combination (d / 2) ^ 2 *
      Real.sin_sq_add_cos_sq (2 * Real.pi * (i : ℝ) / (n : ℝ))
  · intro i j hij hj
    have hij' : (i : ℝ) < (j : ℝ) := by exact_mod_cast hij
    rw [div_lt_div_iff hn0 hn0]
    have hpi : (0 : ℝ) < 2 * Real.pi := by positivity
    linarith [mul_lt_mul_of_pos_left (mul_lt_mul_of_pos_right hij' hn0) hpi]
  · intro i hi
    have hi' : (i : ℝ) < (n : ℝ) := by exact_mod_cast hi
    constructor
    · positivity
    · rw [div_lt_iff hn0]
      exact mul_lt_mul_of_pos_left hi' (by positivity)

/-- Witness for C4 at `d = 2`, `a = 3`, `b = 4`, `n = 2`. -/
theorem conic_closure_and_sampling_witness :
    (generate_circle 2 2).length = 2 + 1 ∧
    (generate_circle 2 2)[2]? = (generate_circle 2 2)[0]? ∧
    (generate_ellipse 3 4 2).length = 2 + 1 ∧
    (generate_ellipse 3 4 2)[2]? = (generate_ellipse 3 4 2)[0]? ∧
    (∀ i : ℕ, i < 2 →
      (generate_circle 2 2)[i]? =
          some ((2 : ℝ) / 2 * Real.cos (2 * Real.pi * (i : ℝ) / ((2 : ℕ) : ℝ)),
            (2 : ℝ) / 2 * Real.sin (2 * Real.pi * (i : ℝ) / ((2 : ℕ) : ℝ))) ∧
        (generate_ellipse 3 4 2)[i]? =
          some ((3 : ℝ) / 2 * Real.cos (2 * Real.pi * (i : ℝ) / ((2 : ℕ) : ℝ)),
            (4 : ℝ) / 2 * Real.sin (2 * Real.pi * (i : ℝ) / ((2 : ℕ) : ℝ)))) ∧
    (∀ (i : ℕ) (x y : ℝ), i < 2 → (generate_circle 2 2)[i]? = some (x, y) →
      x ^ 2 + y ^ 2 = ((2 : ℝ) / 2) ^ 2) ∧
    (∀ i j : ℕ, i < j → j < 2 →
      2 * Real.pi * (i : ℝ) / ((2 : ℕ) : ℝ) < 2 * Real.pi * (j : ℝ) / ((2 : ℕ) : ℝ)) ∧
    (∀ i : ℕ, i < 2 →
      0 ≤ 2 * Real.pi * (i : ℝ) / ((2 : ℕ) : ℝ) ∧
        2 * Real.pi * (i : ℝ) / ((2 : ℕ) : ℝ) < 2 * Real.pi) :=
  conic_closure_and_sampling 2 3 4 2 (by decide)

/-- C9: A circle is an ellipse with equal axes: `generate_circle d n` returns
exactly the same point sequence as `generate_ellipse d d n`. -/
theorem circle_refines_ellipse (d : ℝ) (n : ℕ) (hn : 1 ≤ n) :
    generate_circle d n = generate_ellipse d d n := rfl

/-- Witness for C9 at `d = 5`, `n = 3`. -/
theorem circle_refines_ellipse_witness :
    generate_circle 5 3 = generate_ellipse 5 5 3 :=
  circle_refines_ellipse 5 3 (by decide)

/-- C5 counterexample: the STEP generator's external variant returns `n`
samples, not `n + 1`: at density `4` it yields `4` points. -/
theorem sample_count_counterexample :
    (generate_s_curve_tooth_points 0.4 4 false 0).length ≠ 4 + 1 := by
  rw [length_generate_s_curve_tooth_points]
  decide

/-- C5 (amended): the sample-count split is by generator, not by variant: the
DXF tooth profile generator returns `n + 1` samples, while the STEP generator
`generate_s_curve_tooth_points` returns `n` samples for both the external and
the internal variant. -/
theorem sample_count_by_generator (m ps : ℝ) (b : Bool) (n : ℕ) (hn : 2 ≤ n) :
    (generate_tooth_profile n).length = n + 1 ∧
    (generate_s_curve_tooth_points m n b ps).length = n :=
  ⟨length_generate_tooth_profile n, length_generate_s_curve_tooth_points m ps b n⟩

/-- Witness for the amended C5 at `n = 4`. -/
theorem sample_count_by_generator_witness :
    (generate_tooth_profile 4).length = 4 + 1 ∧
    (generate_s_curve_tooth_points 0.4 4 true 0).length = 4 :=
  sample_count_by_generator 0.4 0 true 4 (by decide)

/-- C6 counterexample: the full-gear projection does not have
`Z * pointsPerTooth` points: for `Z = 2` and requested density `4` it has
`2 * (4 + 1) = 10` points, not `8`. -/
theorem full_gear_size_counterexample :
    (generate_flex_spline_teeth 2 4).length ≠ 2 * 4 := by
  rw [length_generate_flex_spline_teeth]
  decide

/-- C6 (amended): for every `Z` and even requested density `2m` (`m ≥ 1`), the
flex projection has exactly `Z * (2m + 1)` points — `pointsPerTooth + 1` per
tooth, since the profile carries the duplicate half-way endpoint sample — the
midpoint sample of tooth `k` lies exactly at angle `2πk/Z` (radius
`r + addendum`), and successive angular offsets differ by exactly `2π/Z`. -/
theorem full_gear_size_and_spacing (Z mHalf k : ℕ) (hm : 1 ≤ mHalf) (hk : k < Z) :
    (generate_flex_spline_teeth Z (2 * mHalf)).length = Z * (2 * mHalf + 1) ∧
    (generate_flex_spline_teeth Z (2 * mHalf))[k * (2 * mHalf + 1) + mHalf]? =
      some ((D_PITCH_FLEX / 2 + ADDENDUM) * Real.cos (2 * Real.pi * (k : ℝ) / (Z : ℝ)),
        (D_PITCH_FLEX / 2 + ADDENDUM) * Real.sin (2 * Real.pi * (k : ℝ) / (Z : ℝ))) ∧
    2 * Real.pi * ((k : ℝ) + 1) / (Z : ℝ) - 2 * Real.pi * (k : ℝ) / (Z : ℝ) =
      2 * Real.pi / (Z : ℝ) := by
  refine ⟨length_generate_flex_spline_teeth Z (2 * mHalf), ?_, by ring⟩
  rw [generate_flex_spline_teeth_getElem? Z (2 * mHalf) k mHalf hk (by omega)]
  have hmid : (generate_tooth_profile (2 * mHalf))[mHalf]? = some ((0 : ℝ), ADDENDUM) := by
    simp only [generate_tooth_profile]
    rw [List.getElem?_map, List.getElem?_range (by omega : mHalf < 2 * mHalf + 1)]
    have hm0 : ((mHalf : ℝ)) ≠ 0 := by
      exact_mod_cast Nat.pos_iff_ne_zero.mp hm
    have ht : (mHalf : ℝ) / (2 * (mHalf : ℝ)) = 1 / 2 := by
      rw [div_eq_div_iff (mul_ne_zero two_ne_zero hm0) (by norm_num)]
      ring
    simp [ht]
    rw [show (2⁻¹ : ℝ) = 1 / 2 by norm_num, tooth_xy_half]
  rw [hmid]
  simp

/-- Witness for the amended C6 at `Z = 2`, `m = 1` (density 2), `k = 1`. -/
theorem full_gear_size_and_spacing_witness :
    (generate_flex_spline_teeth 2 (2 * 1)).length = 2 * (2 * 1 + 1) ∧
    (generate_flex_spline_teeth 2 (2 * 1))[1 * (2 * 1 + 1) + 1]? =
      some ((D_PITCH_FLEX / 2 + ADDENDUM) *
          Real.cos (2 * Real.pi * ((1 : ℕ) : ℝ) / ((2 : ℕ) : ℝ)),
        (D_PITCH_FLEX / 2 + ADDENDUM) *
          Real.sin (2 * Real.pi * ((1 : ℕ) : ℝ) / ((2 : ℕ) : ℝ))) ∧
    2 * Real.pi * (((1 : ℕ) : ℝ) + 1) / ((2 : ℕ) : ℝ) -
        2 * Real.pi * ((1 : ℕ) : ℝ) / ((2 : ℕ) : ℝ) =
      2 * Real.pi / ((2 : ℕ) : ℝ) :=
  full_gear_size_and_spacing 2 1 1 (by decide) (by decide)

/-- C7 counterexample: the source performs no input validation — at
`toothDifference = -2` the derivation still returns a fully populated
parameter set, with non-positive tooth counts, instead of rejecting. -/
theorem input_validation_counterexample :
    (deriveParameters 100 (-2) (0.4 : ℚ)).Z_flex = -200 ∧
    (deriveParameters 100 (-2) (0.4 : ℚ)).Z_circ = -202 := by
  constructor <;> rfl

/-- C7 (amended): the parameter derivation is total and unvalidated: for every
`toothDifference ≤ 0` (with positive gear ratio) it proceeds and derives
non-positive tooth counts; no error path exists in the source. -/
theorem derivation_total_no_validation (gearRatio toothDifference : ℤ) (module : ℚ)
    (h1 : toothDifference ≤ 0) (h2 : 0 < gearRatio) :
    (deriveParameters gearRatio toothDifference module).Z_flex ≤ 0 ∧
    (deriveParameters gearRatio toothDifference module).Z_circ ≤ 0 := by
  have h3 : gearRatio * toothDifference ≤ gearRatio * 0 :=
    mul_le_mul_of_nonneg_left h1 h2.le
  rw [mul_zero] at h3
  constructor
  · simpa [deriveParameters] using h3
  · simp only [deriveParameters]
    linarith

/-- Witness for the amended C7 at `gearRatio = 100`, `toothDifference = -2`. -/
theorem derivation_total_no_validation_witness :
    (deriveParameters 100 (-2) (0.4 : ℚ)).Z_flex ≤ 0 ∧
    (deriveParameters 100 (-2) (0.4 : ℚ)).Z_circ ≤ 0 :=
  derivation_total_no_validation 100 (-2) 0.4 (by decide) (by decide)

/-- C8 counterexample: no point-density validation exists — `generate_circle`
at degenerate density `n = 1 < 3` and the DXF tooth generator at
`n = 1 < 2` both return point sequences (of 2 points) instead of rejecting. -/
theorem density_validation_counterexample :
    (generate_circle 2 1).length = 2 ∧ (generate_tooth_profile 1).length = 2 := by
  refine ⟨?_, ?_⟩
  · rw [length_generate_circle 2 1 le_rfl]
  · rw [length_generate_tooth_profile]

/-- C8 (amended): the generators perform no density validation: for every
`n ≥ 1` — including the degenerate densities `n < 3` for conics and `n < 2`
for teeth — `generate_circle`, `generate_ellipse` and the DXF tooth profile
generator all return `n + 1` points without error. -/
theorem conic_and_tooth_density_unvalidated (d a b : ℝ) (n : ℕ) (hn : 1 ≤ n) :
    (generate_circle d n).length = n + 1 ∧
    (generate_ellipse a b n).length = n + 1 ∧
    (generate_tooth_profile n).length = n + 1 :=
  ⟨length_generate_circle d n hn, length_generate_ellipse a b n hn,
    length_generate_tooth_profile n⟩

/-- Witness for the amended C8 at `n = 1`. -/
theorem conic_and_tooth_density_unvalidated_witness :
    (generate_circle 7 1).length = 1 + 1 ∧
    (generate_ellipse 7 9 1).length = 1 + 1 ∧
    (generate_tooth_profile 1).length = 1 + 1 :=
  conic_and_tooth_density_unvalidated 7 7 9 1 (by decide)

/-- C10: External tooth-profile mirror symmetry.  For both external
generators, reversing the output and negating each `x` coordinate yields the
original sequence, and the first and last points lie at the root height
`y = -dedendum` (for the STEP generator, densities `n ≥ 2`, since `n = 1`
divides by zero in the source). -/
theorem external_profile_mirror_symmetry (n n2 : ℕ) (m ps : ℝ)
    (hn : 1 ≤ n) (hn2 : 2 ≤ n2) :
    (generate_tooth_profile n).reverse.map (fun p => (-p.1, p.2)) =
        generate_tooth_profile n ∧
    ((generate_tooth_profile n)[0]?).map Prod.snd = some (-DEDENDUM) ∧
    ((generate_tooth_profile n)[n]?).map Prod.snd = some (-DEDENDUM) ∧
    (generate_s_curve_tooth_points m n2 false ps).reverse.map (fun p => (-p.1, p.2)) =
        generate_s_curve_tooth_points m n2 false ps ∧
    ((generate_s_curve_tooth_points m n2 false ps)[0]?).map Prod.snd =
        some (-(1.0 * m - ps)) ∧
    ((generate_s_curve_tooth_points m n2 false ps)[n2 - 1]?).map Prod.snd =
        some (-(1.0 * m - ps)) := by
  refine ⟨generate_tooth_profile_mirror n hn, ?_, ?_,
    generate_s_curve_external_mirror m ps n2 hn2, ?_, ?_⟩
  · simp only [generate_tooth_profile]
    rw [List.getElem?_map, List.getElem?_range (by omega : 0 < n + 1)]
    simp [tooth_xy_zero]
  · simp only [generate_tooth_profile]
    rw [List.getElem?_map, List.getElem?_range (by omega : n < n + 1)]
    have hn0 : ((n : ℝ)) ≠ 0 := by positivity
    simp [div_self hn0, tooth_xy_one]
  · simp only [generate_s_curve_tooth_points, Bool.false_eq_true, if_false]
    rw [List.getElem?_map, List.getElem?_range (by omega : 0 < n2)]
    simp [s_curve_xy_external_zero]
  · simp only [generate_s_curve_tooth_points, Bool.false_eq_true, if_false]
    rw [List.getElem?_map, List.getElem?_range (by omega : n2 - 1 < n2)]
    have h1 : ((n2 - 1 : ℕ) : ℝ) = (n2 : ℝ) - 1 := by
      push_cast [show 1 ≤ n2 by omega]
      ring
    have hden : ((n2 : ℝ)) - 1 ≠ 0 := by
      have h2 : (2 : ℝ) ≤ (n2 : ℝ) := by exact_mod_cast hn2
      intro h
      linarith
    simp [h1, div_self hden, s_curve_xy_external_one]

/-- Witness for C10 at `n = 2`, `n2 = 2`, `m = 1`, `ps = 0`. -/
theorem external_profile_mirror_symmetry_witness :
    (generate_tooth_profile 2).reverse.map (fun p => (-p.1, p.2)) =
        generate_tooth_profile 2 ∧
    ((generate_tooth_profile 2)[0]?).map Prod.snd = some (-DEDENDUM) ∧
    ((generate_tooth_profile 2)[2]?).map Prod.snd = some (-DEDENDUM) ∧
    (generate_s_curve_tooth_points 1 2 false 0).reverse.map (fun p => (-p.1, p.2)) =
        generate_s_curve_tooth_points 1 2 false 0 ∧
    ((generate_s_curve_tooth_points 1 2 false 0)[0]?).map Prod.snd =
        some (-(1.0 * (1 : ℝ) - 0)) ∧
    ((generate_s_curve_tooth_points 1 2 false 0)[2 - 1]?).map Prod.snd =
        some (-(1.0 * (1 : ℝ) - 0)) :=
  external_profile_mirror_symmetry 2 2 1 0 (by decide) (by decide)

end HDrive
